import Mathlib

/-!
Verification of the session-state core of `src/tavus.py`: the record store
(`UserData` with its flash cards and quizzes), the grading routine
(`check_quiz_answers`), the outbound payload construction of the agent tools
(`create_flash_card`, `create_quiz`) and the inbound quiz-submission handler
(`handle_submit_quiz`).

Embedding conventions:
* Identifiers are `str(uuid.uuid4())` in the source; they are modelled as
  natural numbers drawn from a fresh-id counter `nextId` carried in
  `UserData`.  Freshness of random uuids becomes the invariant that every
  stored identifier is `< nextId`.
* Python dataclasses become structures; in-place mutation becomes explicit
  state passing (`UserData` in, `UserData` out).
* The caller-supplied `user_answers` dict becomes an association list whose
  lookup takes the first matching key, exactly the behaviour of `dict.get`
  on a dict (whose keys are unique).
* Python's `None`-propagating truthiness in
  `is_correct = selected_answer and selected_answer.is_correct`
  (a falsy `None` when nothing is selected) is modelled as `false`.
* Exceptions raised inside `handle_submit_quiz` (e.g. the `AttributeError`
  from `correct_answer.text` when `correct_answer is None`) are modelled by
  threading an `Option String` error out of the feedback loop; the outer
  `except Exception` of the Python handler corresponds to the branch that
  turns that error into an `"error: ..."` reply, so the embedded handler is
  a total function and no exception reaches the transport layer.
-/

/-- Mirror of the dataclass `FlashCard` (src/tavus.py lines 44-50). -/
structure FlashCard where
  id : Nat
  question : String
  answer : String
  is_flipped : Bool := false
deriving DecidableEq, Repr

/-- Mirror of the dataclass `QuizAnswer` (lines 52-57). -/
structure QuizAnswer where
  id : Nat
  text : String
  is_correct : Bool
deriving DecidableEq, Repr

/-- Mirror of the dataclass `QuizQuestion` (lines 59-64). -/
structure QuizQuestion where
  id : Nat
  text : String
  answers : List QuizAnswer
deriving DecidableEq, Repr

/-- Mirror of the dataclass `Quiz` (lines 66-70). -/
structure Quiz where
  id : Nat
  questions : List QuizQuestion
deriving DecidableEq, Repr

/-- Mirror of the TypedDict `QuizAnswerDict` (lines 36-38): the caller-facing
shape of one answer option. -/
structure QuizAnswerDict where
  text : String
  is_correct : Bool
deriving DecidableEq, Repr

/-- Mirror of the TypedDict `QuizQuestionDict` (lines 40-42). -/
structure QuizQuestionDict where
  text : String
  answers : List QuizAnswerDict
deriving DecidableEq, Repr

/-- Mirror of the dataclass `UserData` (lines 72-77).  The `ctx` handle to
the external room is modelled separately (see `create_flash_card`); `nextId`
is the fresh-identifier supply standing for `uuid.uuid4()`. -/
structure UserData where
  flash_cards : List FlashCard
  quizzes : List Quiz
  nextId : Nat
deriving DecidableEq, Repr

/-- Mirror of `UserData.add_flash_card` (lines 83-91): construct a card with
a fresh id and `is_flipped = false` (the dataclass default), append it,
return it together with the updated store. -/
def UserData.add_flash_card (ud : UserData) (question answer : String) :
    FlashCard × UserData :=
  let card : FlashCard :=
    { id := ud.nextId, question := question, answer := answer }
  (card, { ud with flash_cards := ud.flash_cards ++ [card],
                   nextId := ud.nextId + 1 })

/-- Mirror of `UserData.get_flash_card` (lines 93-98): linear scan returning
the first card whose id matches. -/
def UserData.get_flash_card (ud : UserData) (card_id : Nat) :
    Option FlashCard :=
  ud.flash_cards.find? (fun card => card.id == card_id)

/-- List-level form of the in-place mutation in `UserData.flip_flash_card`
(lines 100-106): the Python code looks up the first card with the given id
and toggles its `is_flipped` field in place; here the first matching card is
replaced by its toggled copy and returned. -/
def flipFirst (card_id : Nat) : List FlashCard → Option FlashCard × List FlashCard
  | [] => (none, [])
  | card :: rest =>
    if card.id = card_id then
      let card' := { card with is_flipped := !card.is_flipped }
      (some card', card' :: rest)
    else
      let res := flipFirst card_id rest
      (res.1, card :: res.2)

/-- Mirror of `UserData.flip_flash_card` (lines 100-106). -/
def UserData.flip_flash_card (ud : UserData) (card_id : Nat) :
    Option FlashCard × UserData :=
  let rc := flipFirst card_id ud.flash_cards
  (rc.1, { ud with flash_cards := rc.2 })

/-- Mirror of the inner answer loop of `UserData.add_quiz` (lines 112-118):
build the `QuizAnswer` list for one question, drawing ids from the counter in
list order. -/
def mkAnswers (n : Nat) : List QuizAnswerDict → List QuizAnswer × Nat
  | [] => ([], n)
  | a :: rest =>
    let ans : QuizAnswer := { id := n, text := a.text, is_correct := a.is_correct }
    let res := mkAnswers (n + 1) rest
    (ans :: res.1, res.2)

/-- Mirror of the outer question loop of `UserData.add_quiz` (lines 110-123):
for each question dict, the answer ids are generated first, then the
question's own id, exactly the order of the `uuid.uuid4()` calls. -/
def mkQuestions (n : Nat) : List QuizQuestionDict → List QuizQuestion × Nat
  | [] => ([], n)
  | q :: rest =>
    let ans := mkAnswers n q.answers
    let question : QuizQuestion := { id := ans.2, text := q.text, answers := ans.1 }
    let res := mkQuestions (ans.2 + 1) rest
    (question :: res.1, res.2)

/-- Mirror of `UserData.add_quiz` (lines 108-130): build the nested tree with
fresh ids (the quiz's own id is generated last), append the quiz, return it. -/
def UserData.add_quiz (ud : UserData) (questions : List QuizQuestionDict) :
    Quiz × UserData :=
  let qs := mkQuestions ud.nextId questions
  let quiz : Quiz := { id := qs.2, questions := qs.1 }
  (quiz, { ud with quizzes := ud.quizzes ++ [quiz], nextId := qs.2 + 1 })

/-- Mirror of `UserData.get_quiz` (lines 132-137): linear scan by id. -/
def UserData.get_quiz (ud : UserData) (quiz_id : Nat) : Option Quiz :=
  ud.quizzes.find? (fun quiz => quiz.id == quiz_id)

/-- Result tuple `(question, selected_answer, correct_answer, is_correct)`
appended by `check_quiz_answers` (line 160). -/
structure QuizResult where
  question : QuizQuestion
  selected : Option QuizAnswer
  correct : Option QuizAnswer
  is_correct : Bool
deriving DecidableEq, Repr

/-- Mirror of the answer scan of `check_quiz_answers` (lines 150-157): one
pass over the options, overwriting `selected_answer` on an id match and
`correct_answer` on a `correct` flag, so the last match of each wins. -/
def scanAnswers (uid : Option Nat) :
    List QuizAnswer → Option QuizAnswer × Option QuizAnswer →
    Option QuizAnswer × Option QuizAnswer
  | [], acc => acc
  | a :: rest, (sel, corr) =>
    scanAnswers uid rest
      ((if some a.id = uid then some a else sel),
       (if a.is_correct then some a else corr))

/-- Loop body of `check_quiz_answers` for one question (lines 146-160):
look up the chosen answer id (`user_answers.get(question.id)`), scan the
options, and build the result tuple; `is_correct` is the Python
`selected_answer and selected_answer.is_correct`, with the falsy `None`
rendered as `false`. -/
def gradeQuestion (user_answers : List (Nat × Nat)) (question : QuizQuestion) :
    QuizResult :=
  let uid := List.lookup question.id user_answers
  let sc := scanAnswers uid question.answers (none, none)
  { question := question, selected := sc.1, correct := sc.2,
    is_correct := match sc.1 with
      | some s => s.is_correct
      | none => false }

/-- Mirror of `UserData.check_quiz_answers` (lines 139-162): resolve the quiz
(empty result when absent), then one result tuple per question in stored
order. -/
def UserData.check_quiz_answers (ud : UserData) (quiz_id : Nat)
    (user_answers : List (Nat × Nat)) : List QuizResult :=
  match ud.get_quiz quiz_id with
  | none => []
  | some quiz => quiz.questions.map (gradeQuestion user_answers)

/-- Fields of the flash-card RPC dict sent under method `client.flashcard`
with `action = "show"` (lines 282-288 and 508-514). -/
structure FlashPayload where
  action : String
  id : Nat
  question : String
  answer : String
  index : Nat
deriving DecidableEq, Repr

/-- One answer entry of the client-facing quiz payload (lines 380-383): id
and text only — the dict literal has no `is_correct` key. -/
structure ClientAnswer where
  id : Nat
  text : String
deriving DecidableEq, Repr

/-- One question entry of the client-facing quiz payload (lines 384-388). -/
structure ClientQuestion where
  id : Nat
  text : String
  answers : List ClientAnswer
deriving DecidableEq, Repr

/-- The quiz RPC dict sent under method `client.quiz` (lines 390-394).  The
structure's fields are exactly the JSON keys serialized by `json.dumps`; no
field anywhere in it carries a `correct` flag. -/
structure QuizPayload where
  action : String
  id : Nat
  questions : List ClientQuestion
deriving DecidableEq, Repr

/-- Mirror of the payload-formatting loop of `AvatarAgent.create_quiz`
(lines 375-394): per question, per answer, copy id and text (and only
those), preserving order. -/
def quizClientPayload (quiz : Quiz) : QuizPayload :=
  { action := "show",
    id := quiz.id,
    questions := quiz.questions.map (fun q =>
      { id := q.id, text := q.text,
        answers := q.answers.map (fun a => { id := a.id, text := a.text }) }) }

/-- Mirror of `AvatarAgent.create_flash_card` (lines 256-299).  The external
room handle is modelled as `room : Option (List String)`: `none` when
`userdata.ctx`/`ctx.room` is unavailable, otherwise the identities of the
remote participants.  The result is the returned status string, the updated
store, and the RPC payload actually sent (`none` when the send was skipped).
The Python branch for `next(iter(...), None)` returning `None` on a
non-empty dict is unreachable and has no counterpart here. -/
def create_flash_card (ud : UserData) (room : Option (List String))
    (question answer : String) : String × UserData × Option FlashPayload :=
  let card := (ud.add_flash_card question answer).1
  let ud1 := (ud.add_flash_card question answer).2
  match room with
  | none => ("Created a flash card, but couldn't access the room to send it.", ud1, none)
  | some participants =>
    match participants with
    | [] => ("Created a flash card, but no participants found to send it to.", ud1, none)
    | _ :: _ =>
      let payload : FlashPayload :=
        { action := "show", id := card.id, question := card.question,
          answer := card.answer, index := ud1.flash_cards.length - 1 }
      ("I've created a flash card with the question: '" ++ question ++ "'",
       ud1, some payload)

/-- Mirror of `AvatarAgent.create_quiz` (lines 345-405), with the room
modelled as in `create_flash_card`. -/
def create_quiz (ud : UserData) (room : Option (List String))
    (questions : List QuizQuestionDict) : String × UserData × Option QuizPayload :=
  let quiz := (ud.add_quiz questions).1
  let ud1 := (ud.add_quiz questions).2
  match room with
  | none => ("Created a quiz, but couldn't access the room to send it.", ud1, none)
  | some participants =>
    match participants with
    | [] => ("Created a quiz, but no participants found to send it to.", ud1, none)
    | _ :: _ =>
      ("I've created a quiz with " ++ toString questions.length ++
         " questions. Please answer them when you're ready.",
       ud1, some (quizClientPayload quiz))

/-- Decoded form of an inbound `agent.submitQuiz` payload.  `badJson` is a
payload on which `json.loads` raises (carrying the exception text);
`fields` is a decoded JSON object, with `quizId` the result of
`payload_data.get("id")` (`none` when the key is missing or falsy) and
`answers` the result of `payload_data.get("answers", ...)` with the empty
mapping as default. -/
inductive SubmitPayload where
  | badJson (msg : String)
  | fields (quizId : Option Nat) (answers : List (Nat × Nat))
deriving DecidableEq, Repr

/-- The Python text of `str(e)` for the `AttributeError` raised by
`selected_answer.text` or `correct_answer.text` on `None`. -/
def attrErr : String := "'NoneType' object has no attribute 'text'"

/-- Mutable state of the feedback loop of `handle_submit_quiz` (lines
497-522): the store (flash cards are appended for wrong answers), the
flash-card payloads sent so far, and the accumulated feedback lines. -/
structure LoopState where
  ud : UserData
  sent : List FlashPayload
  feedback : List String
deriving Repr

/-- Mirror of the per-question feedback loop of `handle_submit_quiz` (lines
498-522).  Returns the state reached and `some msg` when the iteration
raises (the state mutated before the raise persists, exactly as in Python,
where the loop body appends to `userdata` before the exception point only
for earlier questions). -/
def submitLoop (participants : List String) :
    LoopState → List QuizResult → LoopState × Option String
  | st, [] => (st, none)
  | st, r :: rest =>
    if r.is_correct then
      match r.selected with
      | none => (st, some attrErr)
      | some s =>
        let line := "Question: " ++ r.question.text ++ "\nYour answer: " ++
          s.text ++ " ✓ Correct!"
        submitLoop participants { st with feedback := st.feedback ++ [line] } rest
    else
      match r.correct with
      | none => (st, some attrErr)
      | some c =>
        let selText := match r.selected with
          | some s => s.text
          | none => "None"
        let line := "Question: " ++ r.question.text ++ "\nYour answer: " ++
          selText ++ " ✗ Incorrect. The correct answer is: " ++ c.text
        let card := (st.ud.add_flash_card r.question.text c.text).1
        let ud1 := (st.ud.add_flash_card r.question.text c.text).2
        let sent1 := match participants with
          | [] => st.sent
          | _ :: _ => st.sent ++
              [{ action := "show", id := card.id, question := card.question,
                 answer := card.answer, index := ud1.flash_cards.length - 1 }]
        submitLoop participants
          { ud := ud1, sent := sent1, feedback := st.feedback ++ [line] } rest

/-- Everything observable about one run of `handle_submit_quiz`: the reply
string handed back over RPC, the store afterwards, the flash-card RPC
payloads sent, and the text handed to `session.say` (if reached). -/
structure SubmitOutcome where
  reply : String
  userdata : UserData
  sent : List FlashPayload
  spoken : Option String
deriving Repr

/-- Mirror of `handle_submit_quiz` (lines 464-536).  The function is total:
the outer `try`/`except` of the handler is the branch turning an error from
the feedback loop into an `"error: ..."` reply, so no exception escapes. -/
def handle_submit_quiz (ud : UserData) (participants : List String)
    (p : SubmitPayload) : SubmitOutcome :=
  match p with
  | .badJson msg => { reply := "error: " ++ msg, userdata := ud, sent := [], spoken := none }
  | .fields none _ =>
    { reply := "error: No quiz ID found in payload", userdata := ud, sent := [], spoken := none }
  | .fields (some quiz_id) user_answers =>
    let quiz_results := ud.check_quiz_answers quiz_id user_answers
    if quiz_results.isEmpty then
      { reply := "error: Quiz not found", userdata := ud, sent := [], spoken := none }
    else
      let correct_count := (quiz_results.filter (fun r => r.is_correct)).length
      let total_count := quiz_results.length
      let result_summary := "You got " ++ toString correct_count ++ " out of " ++
        toString total_count ++ " questions correct."
      let run := submitLoop participants { ud := ud, sent := [], feedback := [] } quiz_results
      match run.2 with
      | some e =>
        { reply := "error: " ++ e, userdata := run.1.ud, sent := run.1.sent, spoken := none }
      | none =>
        let detailed_feedback := String.intercalate "\n\n" run.1.feedback
        let full_response := result_summary ++ "\n\n" ++ detailed_feedback
        { reply := "success", userdata := run.1.ud, sent := run.1.sent,
          spoken := some full_response }

/-- Projection of a flash card to the fields never mutated after creation
(everything except `is_flipped`). -/
def FlashCard.core (c : FlashCard) : Nat × String × String :=
  (c.id, c.question, c.answer)

/-- The record store only grows: the prior flash-card sequence is a prefix of
the new one up to the mutable `is_flipped` flag, and the prior quiz sequence
is a prefix of the new one. -/
def Grows (ud ud' : UserData) : Prop :=
  (∃ t, ud'.flash_cards.map FlashCard.core = ud.flash_cards.map FlashCard.core ++ t) ∧
  (∃ t, ud'.quizzes = ud.quizzes ++ t)

/-- The six public operations of the record store (spec section 4.1 and
4.2), as one syntactic class so a single statement ranges over them. -/
inductive StoreOp where
  | addFlashCard (question answer : String)
  | getFlashCard (id : Nat)
  | flipFlashCard (id : Nat)
  | addQuiz (questions : List QuizQuestionDict)
  | getQuiz (id : Nat)
  | grade (id : Nat) (answers : List (Nat × Nat))
deriving Repr

/-- The store after running one operation.  `get_flash_card`, `get_quiz` and
`check_quiz_answers` are read-only in the source (they never assign to
`self`), so they return the store unchanged. -/
def applyOp (ud : UserData) : StoreOp → UserData
  | .addFlashCard q a => (ud.add_flash_card q a).2
  | .getFlashCard _ => ud
  | .flipFlashCard i => (ud.flip_flash_card i).2
  | .addQuiz qs => (ud.add_quiz qs).2
  | .getQuiz _ => ud
  | .grade _ _ => ud

/-- The caller-facing shape of a stored question: its text together with the
text and flag of each option, in order — i.e. the stored question with its
generated ids erased. -/
def QuizQuestion.shape (q : QuizQuestion) : QuizQuestionDict :=
  { text := q.text,
    answers := q.answers.map (fun a => { text := a.text, is_correct := a.is_correct }) }

/-- All identifiers generated for the stored question list, in generation
order: per question first its answers' ids, then the question's own id. -/
def questionIds (qs : List QuizQuestion) : List Nat :=
  qs.flatMap (fun q => q.answers.map QuizAnswer.id ++ [q.id])

/-- All identifiers of a quiz in generation order (the quiz's own id is
generated last). -/
def Quiz.allIds (qz : Quiz) : List Nat :=
  questionIds qz.questions ++ [qz.id]

/-- Number of identifiers `add_quiz` draws for a question list. -/
def qdictSize : List QuizQuestionDict → Nat
  | [] => 0
  | q :: rest => q.answers.length + 1 + qdictSize rest

/-- A quiz with every option's `correct` flag forced to `false`: two quizzes
agree on ids, texts and structure exactly when their `stripCorrect` images
are equal. -/
def Quiz.stripCorrect (qz : Quiz) : Quiz :=
  { qz with questions := qz.questions.map (fun q =>
      { q with answers := q.answers.map (fun a => { a with is_correct := false }) }) }

/-- Text of a graded question's stored correct option (empty when the
question has no option flagged correct). -/
def corrText (r : QuizResult) : String :=
  match r.correct with
  | some c => c.text
  | none => ""

/-- Concrete question fixture used by the closed instances below; its first
option is the correct one (the spec's section 8 example, Q1 with A1/A2). -/
def qd1 : QuizQuestionDict :=
  { text := "Q1", answers := [ { text := "A1", is_correct := true },
                               { text := "A2", is_correct := false } ] }

/-- Second concrete question fixture (Q2 with B1/B2, B2 correct). -/
def qd2 : QuizQuestionDict :=
  { text := "Q2", answers := [ { text := "B1", is_correct := false },
                               { text := "B2", is_correct := true } ] }

/-- The fresh session store. -/
def udEmpty : UserData := { flash_cards := [], quizzes := [], nextId := 0 }

/-- A store holding the two-question fixture quiz (quiz id 6, question ids 2
and 5, answer ids 0, 1, 3, 4). -/
def udEx : UserData := (udEmpty.add_quiz [qd1, qd2]).2

/-- A store holding a quiz whose single question has no option flagged
correct (quiz id 2, question id 1, answer id 0). -/
def udNoCorrect : UserData :=
  (udEmpty.add_quiz [ { text := "Q", answers := [ { text := "A", is_correct := false } ] } ]).2

/-- A store holding a quiz with an empty question list (quiz id 0). -/
def udEmptyQuiz : UserData := (udEmpty.add_quiz []).2

/-- A store holding one flash card (id 0). -/
def udCard : UserData := (udEmpty.add_flash_card "q" "a").2

/-- The quiz stored in `udEx`. -/
def quizEx : Quiz := (udEmpty.add_quiz [qd1, qd2]).1

/-- The stored form of the fixture question Q2. -/
def qzQ2 : QuizQuestion :=
  { id := 5, text := "Q2", answers := [ { id := 3, text := "B1", is_correct := false },
                                        { id := 4, text := "B2", is_correct := true } ] }

/-- The correct option of Q2. -/
def caB2 : QuizAnswer := { id := 4, text := "B2", is_correct := true }

/-- The grading tuple produced for Q2 when B1 is chosen. -/
def resWrong : QuizResult :=
  { question := qzQ2,
    selected := some { id := 3, text := "B1", is_correct := false },
    correct := some caB2, is_correct := false }

/-- A quiz fixture whose first option is flagged correct. -/
def qzFlagsA : Quiz :=
  { id := 0, questions := [ { id := 1, text := "Q",
                              answers := [ { id := 2, text := "A", is_correct := true },
                                           { id := 3, text := "B", is_correct := false } ] } ] }

/-- The same quiz with the flags swapped (ids and texts unchanged). -/
def qzFlagsB : Quiz :=
  { id := 0, questions := [ { id := 1, text := "Q",
                              answers := [ { id := 2, text := "A", is_correct := false },
                                           { id := 3, text := "B", is_correct := true } ] } ] }

/-! Helper lemmas about the option scan of `check_quiz_answers`. -/

/-- Unfolding equation of `scanAnswers` on a cons cell. -/
theorem scanAnswers_pair (uid : Option Nat) (a : QuizAnswer) (l : List QuizAnswer)
    (s c : Option QuizAnswer) :
    scanAnswers uid (a :: l) (s, c) =
      scanAnswers uid l
        ((if some a.id = uid then some a else s),
         (if a.is_correct then some a else c)) := rfl

/-- When no option's id matches, the selected accumulator passes through. -/
theorem scanAnswers_fst_no_match (uid : Option Nat) :
    ∀ (l : List QuizAnswer) (s c : Option QuizAnswer),
      (∀ a ∈ l, some a.id ≠ uid) → (scanAnswers uid l (s, c)).1 = s
  | [], _, _, _ => rfl
  | a :: l, s, c, h => by
    rw [scanAnswers_pair, if_neg (h a (List.mem_cons_self a l))]
    exact scanAnswers_fst_no_match uid l _ _
      (fun x hx => h x (List.mem_cons_of_mem a hx))

/-- A selected option produced by the scan lies in the list and matches the
chosen id, unless it was already the accumulator. -/
theorem scanAnswers_fst_eq_some (uid : Option Nat) :
    ∀ (l : List QuizAnswer) (s c : Option QuizAnswer) (x : QuizAnswer),
      (scanAnswers uid l (s, c)).1 = some x →
      (x ∈ l ∧ some x.id = uid) ∨ s = some x
  | [], _, _, _, hx => Or.inr hx
  | a :: l, s, c, x, hx => by
    rw [scanAnswers_pair] at hx
    rcases scanAnswers_fst_eq_some uid l _ _ x hx with ⟨hmem, hid⟩ | hacc
    · exact Or.inl ⟨List.mem_cons_of_mem a hmem, hid⟩
    · by_cases ha : some a.id = uid
      · rw [if_pos ha] at hacc
        have hax : a = x := Option.some.inj hacc
        refine Or.inl ⟨?_, ?_⟩
        · rw [← hax]; exact List.mem_cons_self a l
        · rw [← hax]; exact ha
      · rw [if_neg ha] at hacc
        exact Or.inr hacc

/-- With pairwise distinct option ids, the scan selects exactly the matching
option. -/
theorem scanAnswers_fst_mem (uid : Option Nat) :
    ∀ (l : List QuizAnswer) (s c : Option QuizAnswer) (a : QuizAnswer),
      (l.map QuizAnswer.id).Nodup → a ∈ l → some a.id = uid →
      (scanAnswers uid l (s, c)).1 = some a
  | [], _, _, a, _, ha, _ => absurd ha (List.not_mem_nil a)
  | b :: l, s, c, a, hn, ha, hid => by
    rw [List.map_cons, List.nodup_cons] at hn
    rw [scanAnswers_pair]
    by_cases hb : some b.id = uid
    · have hba : b.id = a.id := Option.some.inj (hb.trans hid.symm)
      have hab : a = b := by
        rcases List.mem_cons.mp ha with h1 | h1
        · exact h1
        · exact absurd (hba ▸ List.mem_map_of_mem _ h1) hn.1
      have hnom : ∀ x ∈ l, some x.id ≠ uid := by
        intro x hx hxid
        have hxb : x.id = b.id := Option.some.inj (hxid.trans hb.symm)
        exact hn.1 (hxb ▸ List.mem_map_of_mem _ hx)
      rw [if_pos hb, scanAnswers_fst_no_match uid l (some b) _ hnom, hab]
    · have hmem : a ∈ l := by
        rcases List.mem_cons.mp ha with h1 | h1
        · exact absurd (h1 ▸ hid) hb
        · exact h1
      rw [if_neg hb]
      exact scanAnswers_fst_mem uid l _ _ a hn.2 hmem hid

/-- With a `some` accumulator the correct-answer slot stays `some`. -/
theorem scanAnswers_snd_some (uid : Option Nat) :
    ∀ (l : List QuizAnswer) (s : Option QuizAnswer) (cb : QuizAnswer),
      ((scanAnswers uid l (s, some cb)).2).isSome
  | [], _, _ => rfl
  | a :: l, s, cb => by
    rw [scanAnswers_pair]
    by_cases h : a.is_correct = true
    · rw [if_pos h]; exact scanAnswers_snd_some uid l _ a
    · rw [if_neg h]; exact scanAnswers_snd_some uid l _ cb

/-- If some option is flagged correct, the scan yields a correct answer. -/
theorem scanAnswers_snd_isSome (uid : Option Nat) :
    ∀ (l : List QuizAnswer) (s c : Option QuizAnswer),
      (∃ a ∈ l, a.is_correct = true) → ((scanAnswers uid l (s, c)).2).isSome
  | [], _, _, h => absurd h (by simp)
  | b :: l, s, c, h => by
    rw [scanAnswers_pair]
    by_cases hb : b.is_correct = true
    · rw [if_pos hb]; exact scanAnswers_snd_some uid l _ b
    · rw [if_neg hb]
      rcases h with ⟨a, ha, hc⟩
      have hmem : a ∈ l := by
        rcases List.mem_cons.mp ha with h1 | h1
        · rw [h1] at hc; exact absurd hc hb
        · exact h1
      exact scanAnswers_snd_isSome uid l _ _ ⟨a, hmem, hc⟩

/-- When no option is flagged correct, the correct-answer accumulator passes
through. -/
theorem scanAnswers_snd_no_correct (uid : Option Nat) :
    ∀ (l : List QuizAnswer) (s c : Option QuizAnswer),
      (∀ a ∈ l, a.is_correct = false) → (scanAnswers uid l (s, c)).2 = c
  | [], _, _, _ => rfl
  | a :: l, s, c, h => by
    have ha : ¬ a.is_correct = true := by
      rw [h a (List.mem_cons_self a l)]; exact Bool.false_ne_true
    rw [scanAnswers_pair, if_neg ha]
    exact scanAnswers_snd_no_correct uid l _ _
      (fun x hx => h x (List.mem_cons_of_mem a hx))

/-- When exactly one option is flagged correct, the scan finds it. -/
theorem scanAnswers_snd_unique (uid : Option Nat) :
    ∀ (l : List QuizAnswer) (s c : Option QuizAnswer) (ca : QuizAnswer),
      l.filter (fun a => a.is_correct) = [ca] →
      (scanAnswers uid l (s, c)).2 = some ca
  | [], _, _, ca, h => by simp at h
  | b :: l, s, c, ca, h => by
    rw [scanAnswers_pair]
    by_cases hb : b.is_correct = true
    · rw [List.filter_cons_of_pos hb, List.cons.injEq] at h
      obtain ⟨hbca, hnil⟩ := h
      have hno : ∀ x ∈ l, x.is_correct = false := by
        intro x hx
        exact Bool.eq_false_iff.mpr (List.filter_eq_nil_iff.mp hnil x hx)
      rw [if_pos hb, scanAnswers_snd_no_correct uid l _ _ hno, hbca]
    · rw [List.filter_cons_of_neg hb] at h
      rw [if_neg hb]
      exact scanAnswers_snd_unique uid l _ _ ca h

/-! Helper lemmas about `flipFirst`. -/

/-- Unfolding equation of `flipFirst` on a matching head. -/
theorem flipFirst_cons_pos (card_id : Nat) (card : FlashCard) (l : List FlashCard)
    (h : card.id = card_id) :
    flipFirst card_id (card :: l) =
      (some { card with is_flipped := !card.is_flipped },
       { card with is_flipped := !card.is_flipped } :: l) := by
  simp [flipFirst, h]

/-- Unfolding equation of `flipFirst` on a non-matching head. -/
theorem flipFirst_cons_neg (card_id : Nat) (card : FlashCard) (l : List FlashCard)
    (h : ¬ card.id = card_id) :
    flipFirst card_id (card :: l) =
      ((flipFirst card_id l).1, card :: (flipFirst card_id l).2) := by
  simp [flipFirst, h]

/-- A flip on an id that matches no stored card returns absent and leaves the
list untouched. -/
theorem flipFirst_not_mem (card_id : Nat) :
    ∀ (l : List FlashCard), (∀ cd ∈ l, cd.id ≠ card_id) →
      flipFirst card_id l = (none, l)
  | [], _ => rfl
  | cd :: l, h => by
    rw [flipFirst_cons_neg _ _ _ (h cd (List.mem_cons_self cd l)),
        flipFirst_not_mem card_id l (fun x hx => h x (List.mem_cons_of_mem cd hx))]

/-- A flip on the id of a freshly appended card toggles exactly that card. -/
theorem flipFirst_append (card_id : Nat) (cd : FlashCard) (hc : cd.id = card_id) :
    ∀ (l : List FlashCard), (∀ x ∈ l, x.id ≠ card_id) →
    flipFirst card_id (l ++ [cd]) =
      (some { cd with is_flipped := !cd.is_flipped },
       l ++ [{ cd with is_flipped := !cd.is_flipped }])
  | [], _ => by simpa using flipFirst_cons_pos card_id cd [] hc
  | x :: l, h => by
    rw [List.cons_append, flipFirst_cons_neg _ _ _ (h x (List.mem_cons_self x l)),
        flipFirst_append card_id cd hc l (fun y hy => h y (List.mem_cons_of_mem x hy))]
    rfl

/-- A flip on an id present in the list finds a card. -/
theorem flipFirst_isSome (card_id : Nat) :
    ∀ (l : List FlashCard), (∃ cd ∈ l, cd.id = card_id) →
      ((flipFirst card_id l).1).isSome
  | [], h => absurd h (by simp)
  | x :: l, h => by
    by_cases hx : x.id = card_id
    · rw [flipFirst_cons_pos _ _ _ hx]; rfl
    · rw [flipFirst_cons_neg _ _ _ hx]
      rcases h with ⟨cd, hm, hcd⟩
      have hmem : cd ∈ l := by
        rcases List.mem_cons.mp hm with h1 | h1
        · rw [h1] at hcd; exact absurd hcd hx
        · exact h1
      exact flipFirst_isSome card_id l ⟨cd, hmem, hcd⟩

/-- A flip never changes a card's id, question or answer. -/
theorem flipFirst_map_core (card_id : Nat) :
    ∀ (l : List FlashCard),
      ((flipFirst card_id l).2).map FlashCard.core = l.map FlashCard.core
  | [] => rfl
  | x :: l => by
    by_cases hx : x.id = card_id
    · rw [flipFirst_cons_pos _ _ _ hx]; rfl
    · rw [flipFirst_cons_neg _ _ _ hx, List.map_cons,
          flipFirst_map_core card_id l, List.map_cons]

/-! Lemmas about `gradeQuestion` and `check_quiz_answers`. -/

/-- The result tuple carries its question unchanged. -/
theorem gradeQuestion_question (user_answers : List (Nat × Nat)) (q : QuizQuestion) :
    (gradeQuestion user_answers q).question = q := rfl

/-- The correct-answer slot of a result is the scan's second component. -/
theorem gradeQuestion_correct (user_answers : List (Nat × Nat)) (q : QuizQuestion) :
    (gradeQuestion user_answers q).correct =
      (scanAnswers (List.lookup q.id user_answers) q.answers (none, none)).2 := rfl

/-- The `is_correct` flag of a result, as a function of the scan. -/
theorem gradeQuestion_is_correct_eq (user_answers : List (Nat × Nat)) (q : QuizQuestion) :
    (gradeQuestion user_answers q).is_correct =
      (match (scanAnswers (List.lookup q.id user_answers) q.answers (none, none)).1 with
        | some s => s.is_correct
        | none => false) := rfl

/-- A correct result always carries a selected option. -/
theorem gradeQuestion_selected_isSome (user_answers : List (Nat × Nat)) (q : QuizQuestion)
    (h : (gradeQuestion user_answers q).is_correct = true) :
    ((gradeQuestion user_answers q).selected).isSome := by
  rw [gradeQuestion_is_correct_eq] at h
  rcases hsel : (scanAnswers (List.lookup q.id user_answers) q.answers (none, none)).1 with _ | s
  · rw [hsel] at h
    exact absurd h Bool.false_ne_true
  · show ((scanAnswers (List.lookup q.id user_answers) q.answers (none, none)).1).isSome
    rw [hsel]
    rfl

/-- Under distinct option ids, a result is correct exactly when an option of
its question matches the mapped chosen id and is flagged correct. -/
theorem gradeQuestion_is_correct_iff (user_answers : List (Nat × Nat)) (q : QuizQuestion)
    (hn : (q.answers.map QuizAnswer.id).Nodup) :
    (gradeQuestion user_answers q).is_correct = true ↔
      ∃ a ∈ q.answers,
        List.lookup q.id user_answers = some a.id ∧ a.is_correct = true := by
  constructor
  · intro h
    rw [gradeQuestion_is_correct_eq] at h
    rcases hsel : (scanAnswers (List.lookup q.id user_answers) q.answers (none, none)).1 with _ | s
    · rw [hsel] at h
      exact absurd h Bool.false_ne_true
    · rw [hsel] at h
      rcases scanAnswers_fst_eq_some _ q.answers _ _ s hsel with ⟨hmem, hid⟩ | habs
      · exact ⟨s, hmem, hid.symm, h⟩
      · cases habs
  · rintro ⟨a, hmem, hid, hc⟩
    rw [gradeQuestion_is_correct_eq,
        scanAnswers_fst_mem _ q.answers none none a hn hmem hid.symm]
    exact hc

/-- Grading an unknown quiz id yields the empty sequence. -/
theorem check_quiz_answers_of_none (ud : UserData) (quiz_id : Nat)
    (user_answers : List (Nat × Nat)) (h : ud.get_quiz quiz_id = none) :
    ud.check_quiz_answers quiz_id user_answers = [] := by
  unfold UserData.check_quiz_answers
  rw [h]

/-- Grading a stored quiz maps `gradeQuestion` over its questions. -/
theorem check_quiz_answers_of_some (ud : UserData) (quiz_id : Nat)
    (user_answers : List (Nat × Nat)) (quiz : Quiz)
    (h : ud.get_quiz quiz_id = some quiz) :
    ud.check_quiz_answers quiz_id user_answers =
      quiz.questions.map (gradeQuestion user_answers) := by
  unfold UserData.check_quiz_answers
  rw [h]

/-- C1: for every call `grade(quizId, answers)`: if no quiz with that id is
stored the result is empty; otherwise there is exactly one result tuple per
stored question, in the quiz's stored question order, and a tuple's
`isCorrect` is true iff an answer option of that question has id equal to
the mapped chosen id and that option's `correct` flag is true.  The
hypothesis that option ids are pairwise distinct within each stored question
is the data-model invariant of spec section 3 (ids are uuid-fresh;
`C7_add_quiz` proves the store only ever creates such quizzes). -/
theorem C1_grading (ud : UserData) (quiz_id : Nat) (user_answers : List (Nat × Nat))
    (hids : ∀ quiz ∈ ud.quizzes, ∀ q ∈ quiz.questions,
      (q.answers.map QuizAnswer.id).Nodup) :
    (ud.get_quiz quiz_id = none → ud.check_quiz_answers quiz_id user_answers = []) ∧
    (∀ quiz, ud.get_quiz quiz_id = some quiz →
      (ud.check_quiz_answers quiz_id user_answers).map QuizResult.question = quiz.questions ∧
      ∀ r ∈ ud.check_quiz_answers quiz_id user_answers,
        (r.is_correct = true ↔
          ∃ a ∈ r.question.answers,
            List.lookup r.question.id user_answers = some a.id ∧
            a.is_correct = true)) := by
  constructor
  · exact check_quiz_answers_of_none ud quiz_id user_answers
  · intro quiz hq
    have hrw := check_quiz_answers_of_some ud quiz_id user_answers quiz hq
    constructor
    · rw [hrw, List.map_map]
      have hcomp : QuizResult.question ∘ gradeQuestion user_answers = fun q => q := rfl
      rw [hcomp]
      exact List.map_id' quiz.questions
    · intro r hr
      rw [hrw] at hr
      rcases List.mem_map.mp hr with ⟨q, hqmem, rfl⟩
      exact gradeQuestion_is_correct_iff user_answers q
        (hids quiz (List.mem_of_find?_eq_some hq) q hqmem)

/-- Closed instance of `C1_grading`: the fixture store with the section-8
example quiz, answered with A1 for Q1 and B1 for Q2. -/
theorem C1_grading_witness :
    (∀ quiz ∈ udEx.quizzes, ∀ q ∈ quiz.questions, (q.answers.map QuizAnswer.id).Nodup) ∧
    (udEx.get_quiz 6 = none → udEx.check_quiz_answers 6 [(2, 0), (5, 3)] = []) :=
  ⟨by decide, (C1_grading udEx 6 [(2, 0), (5, 3)] (by decide)).1⟩

/-- C4: a flash card fresh from `add_flash_card` starts unflipped; flipping
it twice by id returns the card with `flipped = true` after the first call
and `flipped = false` after the second, and a flip never fails for an id
present in the store.  The hypothesis is the id-freshness invariant of spec
section 3 (identifiers are globally unique within a session). -/
theorem C4_flip_twice (ud : UserData) (q a : String)
    (hwf : ∀ cd ∈ ud.flash_cards, cd.id < ud.nextId) :
    (((ud.add_flash_card q a).2.flip_flash_card (ud.add_flash_card q a).1.id).1 =
      some { id := ud.nextId, question := q, answer := a, is_flipped := true }) ∧
    ((((ud.add_flash_card q a).2.flip_flash_card
          (ud.add_flash_card q a).1.id).2.flip_flash_card
        (ud.add_flash_card q a).1.id).1 =
      some { id := ud.nextId, question := q, answer := a, is_flipped := false }) ∧
    (∀ (ud' : UserData) (i : Nat), (∃ cd ∈ ud'.flash_cards, cd.id = i) →
      ((ud'.flip_flash_card i).1).isSome) := by
  have hne : ∀ x ∈ ud.flash_cards, x.id ≠ ud.nextId :=
    fun x hx => Nat.ne_of_lt (hwf x hx)
  have h1 := flipFirst_append ud.nextId
    { id := ud.nextId, question := q, answer := a, is_flipped := false } rfl
    ud.flash_cards hne
  have h2 := flipFirst_append ud.nextId
    { id := ud.nextId, question := q, answer := a, is_flipped := true } rfl
    ud.flash_cards hne
  refine ⟨?_, ?_, ?_⟩
  · show (flipFirst ud.nextId (ud.flash_cards ++
      [{ id := ud.nextId, question := q, answer := a, is_flipped := false }])).1 = _
    rw [h1]
    rfl
  · show (flipFirst ud.nextId (flipFirst ud.nextId (ud.flash_cards ++
      [{ id := ud.nextId, question := q, answer := a, is_flipped := false }])).2).1 = _
    rw [h1]
    show (flipFirst ud.nextId (ud.flash_cards ++
      [{ id := ud.nextId, question := q, answer := a, is_flipped := true }])).1 = _
    rw [h2]
    rfl
  · intro ud' i hex
    exact flipFirst_isSome i ud'.flash_cards hex

/-- Closed instance of `C4_flip_twice`: a card added to the empty store. -/
theorem C4_flip_twice_witness :
    (∀ cd ∈ udEmpty.flash_cards, cd.id < udEmpty.nextId) ∧
    ((udEmpty.add_flash_card "q" "a").2.flip_flash_card
        (udEmpty.add_flash_card "q" "a").1.id).1 =
      some { id := udEmpty.nextId, question := "q", answer := "a", is_flipped := true } :=
  ⟨by decide, (C4_flip_twice udEmpty "q" "a" (by decide)).1⟩

/-- C5: flipping an id held by no stored flash card returns an absent result
(not an error) and leaves the flash-card sequence unchanged in length and
element-wise contents. -/
theorem C5_flip_unknown (ud : UserData) (card_id : Nat)
    (h : ∀ cd ∈ ud.flash_cards, cd.id ≠ card_id) :
    ud.flip_flash_card card_id = (none, ud) ∧
    ((ud.flip_flash_card card_id).2).flash_cards = ud.flash_cards := by
  have h1 := flipFirst_not_mem card_id ud.flash_cards h
  constructor
  · show ((flipFirst card_id ud.flash_cards).1,
      { ud with flash_cards := (flipFirst card_id ud.flash_cards).2 }) = (none, ud)
    rw [h1]
  · show (flipFirst card_id ud.flash_cards).2 = ud.flash_cards
    rw [h1]

/-- Closed instance of `C5_flip_unknown`: id 99 on a one-card store. -/
theorem C5_flip_unknown_witness :
    (∀ cd ∈ udCard.flash_cards, cd.id ≠ 99) ∧
    udCard.flip_flash_card 99 = (none, udCard) :=
  ⟨by decide, (C5_flip_unknown udCard 99 (by decide)).1⟩

/-- C6: every record-store operation only grows the store: the prior
flash-card sequence is a prefix of the new one up to the mutable
`is_flipped` flag (the only field a flip changes), and the prior quiz
sequence is a prefix of the new one; no record is ever removed. -/
theorem C6_grow_only (ud : UserData) (op : StoreOp) : Grows ud (applyOp ud op) := by
  cases op with
  | addFlashCard q a =>
    refine ⟨⟨[FlashCard.core ((ud.add_flash_card q a).1)], ?_⟩, ⟨[], ?_⟩⟩
    · exact List.map_append FlashCard.core ud.flash_cards [(ud.add_flash_card q a).1]
    · exact (List.append_nil ud.quizzes).symm
  | getFlashCard i =>
    exact ⟨⟨[], (List.append_nil _).symm⟩, ⟨[], (List.append_nil _).symm⟩⟩
  | flipFlashCard i =>
    refine ⟨⟨[], ?_⟩, ⟨[], (List.append_nil _).symm⟩⟩
    show ((flipFirst i ud.flash_cards).2).map FlashCard.core =
      ud.flash_cards.map FlashCard.core ++ []
    rw [flipFirst_map_core, List.append_nil]
  | addQuiz qs =>
    exact ⟨⟨[], (List.append_nil _).symm⟩, ⟨[(ud.add_quiz qs).1], rfl⟩⟩
  | getQuiz i =>
    exact ⟨⟨[], (List.append_nil _).symm⟩, ⟨[], (List.append_nil _).symm⟩⟩
  | grade i answers =>
    exact ⟨⟨[], (List.append_nil _).symm⟩, ⟨[], (List.append_nil _).symm⟩⟩

/-! Counting lemmas for `add_quiz` (claim C7). -/

/-- The answer loop advances the id counter by one per option. -/
theorem mkAnswers_snd : ∀ (l : List QuizAnswerDict) (n : Nat),
    (mkAnswers n l).2 = n + l.length
  | [], n => rfl
  | a :: l, n => by
    show (mkAnswers (n + 1) l).2 = n + (l.length + 1)
    rw [mkAnswers_snd l (n + 1)]
    omega

/-- The answer loop preserves each option's text and flag, in order. -/
theorem mkAnswers_shape : ∀ (l : List QuizAnswerDict) (n : Nat),
    ((mkAnswers n l).1).map
      (fun a => ({ text := a.text, is_correct := a.is_correct } : QuizAnswerDict)) = l
  | [], _ => rfl
  | a :: l, n => by
    show ({ text := a.text, is_correct := a.is_correct } : QuizAnswerDict) ::
      ((mkAnswers (n + 1) l).1).map
        (fun a => ({ text := a.text, is_correct := a.is_correct } : QuizAnswerDict)) = a :: l
    rw [mkAnswers_shape l (n + 1)]

/-- The answer loop assigns exactly the ids `n, n+1, ...` in order. -/
theorem mkAnswers_ids : ∀ (l : List QuizAnswerDict) (n : Nat),
    ((mkAnswers n l).1).map QuizAnswer.id = List.range' n l.length
  | [], _ => rfl
  | a :: l, n => by
    show n :: ((mkAnswers (n + 1) l).1).map QuizAnswer.id = List.range' n (l.length + 1)
    rw [mkAnswers_ids l (n + 1), List.range'_succ]

/-- The question loop draws one id per option plus one per question. -/
theorem mkQuestions_snd : ∀ (l : List QuizQuestionDict) (n : Nat),
    (mkQuestions n l).2 = n + qdictSize l
  | [], n => rfl
  | q :: l, n => by
    show (mkQuestions ((mkAnswers n q.answers).2 + 1) l).2 = n + qdictSize (q :: l)
    rw [mkQuestions_snd l ((mkAnswers n q.answers).2 + 1), mkAnswers_snd q.answers n]
    show n + q.answers.length + 1 + qdictSize l =
      n + (q.answers.length + 1 + qdictSize l)
    omega

/-- The question loop preserves every text and flag, in order, at both
levels. -/
theorem mkQuestions_shape : ∀ (l : List QuizQuestionDict) (n : Nat),
    ((mkQuestions n l).1).map QuizQuestion.shape = l
  | [], _ => rfl
  | q :: l, n => by
    show QuizQuestion.shape
        { id := (mkAnswers n q.answers).2, text := q.text,
          answers := (mkAnswers n q.answers).1 } ::
      ((mkQuestions ((mkAnswers n q.answers).2 + 1) l).1).map QuizQuestion.shape = q :: l
    rw [mkQuestions_shape l ((mkAnswers n q.answers).2 + 1)]
    congr 1
    show ({ text := q.text,
            answers := ((mkAnswers n q.answers).1).map
              (fun a => ({ text := a.text, is_correct := a.is_correct } : QuizAnswerDict)) } :
          QuizQuestionDict) = q
    rw [mkAnswers_shape q.answers n]

/-- The question loop assigns exactly the ids `n, ..., n + size - 1` in
generation order. -/
theorem mkQuestions_ids : ∀ (l : List QuizQuestionDict) (n : Nat),
    questionIds (mkQuestions n l).1 = List.range' n (qdictSize l)
  | [], _ => rfl
  | q :: l, n => by
    show (((mkAnswers n q.answers).1).map QuizAnswer.id ++ [(mkAnswers n q.answers).2]) ++
      questionIds (mkQuestions ((mkAnswers n q.answers).2 + 1) l).1 =
      List.range' n (qdictSize (q :: l))
    rw [mkAnswers_ids q.answers n,
        mkQuestions_ids l ((mkAnswers n q.answers).2 + 1),
        mkAnswers_snd q.answers n,
        ← List.range'_1_concat n q.answers.length]
    show List.range' n (q.answers.length + 1) ++
      List.range' (n + (q.answers.length + 1)) (qdictSize l) =
      List.range' n (qdictSize (q :: l))
    rw [List.range'_append_1 n (q.answers.length + 1) (qdictSize l)]
    congr 1
    show qdictSize l + (q.answers.length + 1) = q.answers.length + 1 + qdictSize l
    omega

/-- C7: `add_quiz` always succeeds (it is total over every input sequence,
with no validation of the `correct` flags), returns a quiz whose questions
and per-question options preserve the input order, texts and flags exactly
(`shape` erases only the generated ids), assigns pairwise distinct fresh
identifiers (all at or above the current counter, i.e. unused by any stored
record) to the quiz, each question and each answer option, and appends the
quiz to the store. -/
theorem C7_add_quiz (ud : UserData) (questions : List QuizQuestionDict) :
    ((ud.add_quiz questions).1.questions).map QuizQuestion.shape = questions ∧
    ((ud.add_quiz questions).1.allIds).Nodup ∧
    (∀ i ∈ (ud.add_quiz questions).1.allIds, ud.nextId ≤ i) ∧
    (ud.add_quiz questions).2.quizzes = ud.quizzes ++ [(ud.add_quiz questions).1] := by
  have hids : (ud.add_quiz questions).1.allIds =
      List.range' ud.nextId (qdictSize questions + 1) := by
    show questionIds (mkQuestions ud.nextId questions).1 ++
      [(mkQuestions ud.nextId questions).2] = _
    rw [mkQuestions_ids questions ud.nextId, mkQuestions_snd questions ud.nextId,
        ← List.range'_1_concat ud.nextId (qdictSize questions)]
  refine ⟨mkQuestions_shape questions ud.nextId, ?_, ?_, rfl⟩
  · rw [hids]
    exact List.nodup_range' _ _
  · rw [hids]
    intro i hi
    exact (List.mem_range'_1.mp hi).1

/-- C8: the client-facing quiz payload sent under `client.quiz` carries no
`correct` flag anywhere (the `QuizPayload` tree has no such field), and it
is identical for two quizzes that agree on ids, texts and structure and
differ only in which options are flagged correct: the outbound payload does
not depend on the `correct` flags. -/
theorem C8_quiz_payload_hides_correct (q1 q2 : Quiz)
    (h : q1.stripCorrect = q2.stripCorrect) :
    quizClientPayload q1 = quizClientPayload q2 := by
  have key : ∀ qz : Quiz, quizClientPayload qz.stripCorrect = quizClientPayload qz := by
    intro qz
    simp only [quizClientPayload, Quiz.stripCorrect, List.map_map]
    congr 1
    congr 1
    funext q
    show ({ id := q.id, text := q.text,
            answers := (q.answers.map (fun a => ({ a with is_correct := false } : QuizAnswer))).map
              (fun a => ({ id := a.id, text := a.text } : ClientAnswer)) } : ClientQuestion) =
      { id := q.id, text := q.text,
        answers := q.answers.map (fun a => ({ id := a.id, text := a.text } : ClientAnswer)) }
    rw [List.map_map]
    rfl
  calc quizClientPayload q1 = quizClientPayload q1.stripCorrect := (key q1).symm
    _ = quizClientPayload q2.stripCorrect := by rw [h]
    _ = quizClientPayload q2 := key q2

/-- Closed instance of `C8_quiz_payload_hides_correct`: the two fixture
quizzes differing only in their flags. -/
theorem C8_quiz_payload_hides_correct_witness :
    qzFlagsA.stripCorrect = qzFlagsB.stripCorrect ∧
    quizClientPayload qzFlagsA = quizClientPayload qzFlagsB :=
  ⟨rfl, C8_quiz_payload_hides_correct qzFlagsA qzFlagsB rfl⟩

/-- C9: creating a flash card with no room handle or no connected remote
peer does not raise (the embedded operation is total): the new card is still
appended to the store, the RPC notification is simply not sent, and the
result is one of the two human-readable status strings of the source. -/
theorem C9_flash_card_no_peer (ud : UserData) (room : Option (List String))
    (question answer : String) (h : room = none ∨ room = some []) :
    ((create_flash_card ud room question answer).2.1).flash_cards =
      ud.flash_cards ++ [(ud.add_flash_card question answer).1] ∧
    (create_flash_card ud room question answer).2.2 = none ∧
    ((create_flash_card ud room question answer).1 =
        "Created a flash card, but couldn't access the room to send it." ∨
      (create_flash_card ud room question answer).1 =
        "Created a flash card, but no participants found to send it to.") := by
  rcases h with rfl | rfl
  · exact ⟨rfl, rfl, Or.inl rfl⟩
  · exact ⟨rfl, rfl, Or.inr rfl⟩

/-- Closed instance of `C9_flash_card_no_peer`: the empty store and no room. -/
theorem C9_flash_card_no_peer_witness :
    ((none : Option (List String)) = none ∨ (none : Option (List String)) = some []) ∧
    (create_flash_card udEmpty none "q" "a").2.2 = none :=
  ⟨Or.inl rfl, (C9_flash_card_no_peer udEmpty none "q" "a" (Or.inl rfl)).2.1⟩

/-- C10: a stored quiz with an empty question list grades to the empty
sequence, so the quiz-submission handler replies `error: Quiz not found` for
its id even though the quiz exists — the same reply it gives for an id that
matches no stored quiz, making the two cases indistinguishable at the
handler interface. -/
theorem C10_empty_quiz_indistinguishable (ud : UserData) (participants : List String)
    (quiz_id : Nat) (user_answers : List (Nat × Nat)) (quiz : Quiz)
    (hq : ud.get_quiz quiz_id = some quiz) (hempty : quiz.questions = []) :
    ud.check_quiz_answers quiz_id user_answers = [] ∧
    (handle_submit_quiz ud participants (.fields (some quiz_id) user_answers)).reply =
      "error: Quiz not found" ∧
    (∀ unknown_id : Nat, ud.get_quiz unknown_id = none →
      (handle_submit_quiz ud participants (.fields (some unknown_id) user_answers)).reply =
        "error: Quiz not found") := by
  have hchk : ud.check_quiz_answers quiz_id user_answers = [] := by
    rw [check_quiz_answers_of_some ud quiz_id user_answers quiz hq, hempty]
    rfl
  refine ⟨hchk, ?_, ?_⟩
  · simp only [handle_submit_quiz, hchk]
    rfl
  · intro unknown_id huid
    simp only [handle_submit_quiz, check_quiz_answers_of_none ud unknown_id user_answers huid]
    rfl

/-- Closed instance of `C10_empty_quiz_indistinguishable`: the store holding
the zero-question quiz with id 0. -/
theorem C10_empty_quiz_indistinguishable_witness :
    (udEmptyQuiz.get_quiz 0 = some { id := 0, questions := [] } ∧
      ({ id := 0, questions := [] } : Quiz).questions = []) ∧
    (handle_submit_quiz udEmptyQuiz [] (.fields (some 0) [])).reply =
      "error: Quiz not found" :=
  ⟨⟨rfl, rfl⟩,
   (C10_empty_quiz_indistinguishable udEmptyQuiz [] 0 [] { id := 0, questions := [] }
     rfl rfl).2.1⟩

/-! Lemmas about the feedback loop of the quiz-submission handler. -/

/-- Unfolding equation of `submitLoop` on a correctly answered question. -/
theorem submitLoop_cons_correct (participants : List String) (r : QuizResult)
    (rest : List QuizResult) (st : LoopState) (s : QuizAnswer)
    (hc : r.is_correct = true) (hs : r.selected = some s) :
    submitLoop participants st (r :: rest) =
      submitLoop participants
        { st with feedback := st.feedback ++ ["Question: " ++ r.question.text ++
            "\nYour answer: " ++ s.text ++ " ✓ Correct!"] } rest := by
  simp only [submitLoop, hc, hs, eq_self_iff_true, if_true]

/-- Unfolding equation of `submitLoop` on an incorrectly answered question
whose stored correct option exists: one flash card is created from the
question text and the correct option's text. -/
theorem submitLoop_cons_incorrect (participants : List String) (r : QuizResult)
    (rest : List QuizResult) (st : LoopState) (c : QuizAnswer)
    (hc : r.is_correct = false) (hcorr : r.correct = some c) :
    submitLoop participants st (r :: rest) =
      submitLoop participants
        { ud := (st.ud.add_flash_card r.question.text c.text).2,
          sent := (match participants with
            | [] => st.sent
            | _ :: _ => st.sent ++
                [{ action := "show",
                   id := (st.ud.add_flash_card r.question.text c.text).1.id,
                   question := (st.ud.add_flash_card r.question.text c.text).1.question,
                   answer := (st.ud.add_flash_card r.question.text c.text).1.answer,
                   index := ((st.ud.add_flash_card r.question.text c.text).2).flash_cards.length - 1 }]),
          feedback := st.feedback ++ ["Question: " ++ r.question.text ++
            "\nYour answer: " ++ (match r.selected with
              | some s => s.text
              | none => "None") ++ " ✗ Incorrect. The correct answer is: " ++ c.text] }
        rest := by
  simp only [submitLoop, hc, hcorr, Bool.false_eq_true, if_false]

/-- When every incorrect result has a stored correct option (and every
correct result a selected one), the feedback loop raises nothing and appends
exactly one flash card per incorrect result, carrying the question text and
the correct option's text. -/
theorem submitLoop_ok (participants : List String) :
    ∀ (l : List QuizResult) (st : LoopState),
      (∀ r ∈ l, (r.is_correct = true → (r.selected).isSome) ∧
                (r.is_correct = false → (r.correct).isSome)) →
      (submitLoop participants st l).2 = none ∧
      ∃ cards : List FlashCard,
        ((submitLoop participants st l).1).ud.flash_cards = st.ud.flash_cards ++ cards ∧
        cards.map (fun cd => (cd.question, cd.answer, cd.is_flipped)) =
          (l.filter (fun r => !r.is_correct)).map
            (fun r => (r.question.text, corrText r, false))
  | [], st, _ => ⟨rfl, [], (List.append_nil _).symm, rfl⟩
  | r :: rest, st, h => by
    have hr := h r (List.mem_cons_self r rest)
    have hrest := fun x hx => h x (List.mem_cons_of_mem r hx)
    by_cases hc : r.is_correct = true
    · rcases Option.isSome_iff_exists.mp (hr.1 hc) with ⟨s, hs⟩
      rw [submitLoop_cons_correct participants r rest st s hc hs]
      obtain ⟨h2, cards, hcards, hmap⟩ := submitLoop_ok participants rest _ hrest
      refine ⟨h2, cards, hcards, ?_⟩
      rw [List.filter_cons_of_neg (by simp [hc])]
      exact hmap
    · have hcf : r.is_correct = false := Bool.eq_false_iff.mpr hc
      rcases Option.isSome_iff_exists.mp (hr.2 hcf) with ⟨c, hcorr⟩
      rw [submitLoop_cons_incorrect participants r rest st c hcf hcorr]
      obtain ⟨h2, cards, hcards, hmap⟩ := submitLoop_ok participants rest _ hrest
      refine ⟨h2, ({ id := st.ud.nextId, question := r.question.text,
                     answer := c.text, is_flipped := false } : FlashCard) :: cards, ?_, ?_⟩
      · rw [hcards]
        show (st.ud.flash_cards ++
            [({ id := st.ud.nextId, question := r.question.text,
                answer := c.text, is_flipped := false } : FlashCard)]) ++ cards =
          st.ud.flash_cards ++
            ({ id := st.ud.nextId, question := r.question.text,
               answer := c.text, is_flipped := false } : FlashCard) :: cards
        rw [List.append_assoc]
        rfl
      · rw [List.filter_cons_of_pos (by simp [hcf]), List.map_cons, List.map_cons, hmap]
        congr 1
        show (r.question.text, c.text, false) = (r.question.text, corrText r, false)
        unfold corrText
        rw [hcorr]

/-- When grading is non-empty and the feedback loop finishes without
raising, the handler replies `success` and its final store is the loop's. -/
theorem handle_submit_quiz_success_eq (ud : UserData) (participants : List String)
    (quiz_id : Nat) (user_answers : List (Nat × Nat))
    (hne : (ud.check_quiz_answers quiz_id user_answers).isEmpty = false)
    (hrun : (submitLoop participants { ud := ud, sent := [], feedback := [] }
      (ud.check_quiz_answers quiz_id user_answers)).2 = none) :
    (handle_submit_quiz ud participants (.fields (some quiz_id) user_answers)).reply =
      "success" ∧
    (handle_submit_quiz ud participants (.fields (some quiz_id) user_answers)).userdata =
      ((submitLoop participants { ud := ud, sent := [], feedback := [] }
        (ud.check_quiz_answers quiz_id user_answers)).1).ud := by
  constructor <;>
    simp only [handle_submit_quiz, hne, Bool.false_eq_true, ite_false, hrun]

/-- Every result produced by grading a stored quiz carries a selected option
whenever it is marked correct. -/
theorem check_result_selected (ud : UserData) (quiz_id : Nat)
    (user_answers : List (Nat × Nat)) (r : QuizResult)
    (hr : r ∈ ud.check_quiz_answers quiz_id user_answers)
    (hc : r.is_correct = true) : (r.selected).isSome := by
  unfold UserData.check_quiz_answers at hr
  rcases hq : ud.get_quiz quiz_id with _ | quiz
  · rw [hq] at hr
    cases hr
  · rw [hq] at hr
    rcases List.mem_map.mp hr with ⟨q, _, rfl⟩
    exact gradeQuestion_selected_isSome user_answers q hc

/-- C2 (amended): a decoded submission whose quiz id resolves to a stored
quiz with at least one question, every question of which has at least one
option flagged correct, makes the handler reply with the literal string
`success`; the embedded handler is a total function, so no exception
reaches the transport layer.  (Without the flagged-correct condition the
Python handler hits `correct_answer.text` on `None`, whose `AttributeError`
is caught and turned into an `error:` reply — see `C2_counterexample`.) -/
theorem C2_submit_success (ud : UserData) (participants : List String)
    (quiz_id : Nat) (user_answers : List (Nat × Nat)) (quiz : Quiz)
    (hq : ud.get_quiz quiz_id = some quiz)
    (hne : quiz.questions ≠ [])
    (hcorr : ∀ q ∈ quiz.questions, ∃ a ∈ q.answers, a.is_correct = true) :
    (handle_submit_quiz ud participants (.fields (some quiz_id) user_answers)).reply =
      "success" := by
  have hrw := check_quiz_answers_of_some ud quiz_id user_answers quiz hq
  have hcond : ∀ r ∈ ud.check_quiz_answers quiz_id user_answers,
      (r.is_correct = true → (r.selected).isSome) ∧
      (r.is_correct = false → (r.correct).isSome) := by
    intro r hr
    refine ⟨check_result_selected ud quiz_id user_answers r hr, ?_⟩
    intro _
    rw [hrw] at hr
    rcases List.mem_map.mp hr with ⟨q, hqmem, rfl⟩
    rw [gradeQuestion_correct]
    exact scanAnswers_snd_isSome _ q.answers none none (hcorr q hqmem)
  have hloop := submitLoop_ok participants (ud.check_quiz_answers quiz_id user_answers)
    { ud := ud, sent := [], feedback := [] } hcond
  have hnonempty : (ud.check_quiz_answers quiz_id user_answers).isEmpty = false := by
    rw [hrw]
    cases hqq : quiz.questions with
    | nil => exact absurd hqq hne
    | cons x xs => rfl
  exact (handle_submit_quiz_success_eq ud participants quiz_id user_answers
    hnonempty hloop.1).1

/-- Closed instance of `C2_submit_success`: the fixture quiz answered with
A1 and B1. -/
theorem C2_submit_success_witness :
    (udEx.get_quiz 6 = some quizEx ∧ quizEx.questions ≠ [] ∧
      ∀ q ∈ quizEx.questions, ∃ a ∈ q.answers, a.is_correct = true) ∧
    (handle_submit_quiz udEx [] (.fields (some 6) [(2, 0), (5, 3)])).reply = "success" :=
  ⟨⟨rfl, by decide, by decide⟩,
   C2_submit_success udEx [] 6 [(2, 0), (5, 3)] quizEx rfl (by decide) (by decide)⟩

/-- C2 is false as frozen: for the stored quiz whose single question has no
option flagged correct, the payload decodes, carries the quiz id, the id
resolves, grading is non-empty — yet the reply is the `error:` rendering of
the `AttributeError` from `correct_answer.text`, not `success`. -/
theorem C2_counterexample :
    (udNoCorrect.get_quiz 2).isSome = true ∧
    (udNoCorrect.check_quiz_answers 2 []).length = 1 ∧
    (handle_submit_quiz udNoCorrect [] (.fields (some 2) [])).reply =
      "error: 'NoneType' object has no attribute 'text'" ∧
    (handle_submit_quiz udNoCorrect [] (.fields (some 2) [])).reply ≠ "success" :=
  ⟨rfl, rfl, rfl, by decide⟩

/-- C3: when grading a submission leaves exactly one question answered
incorrectly and that question has exactly one option flagged correct, the
handler appends exactly one new flash card, whose question text is that
question's text and whose answer text is the flagged-correct option's text
(and which starts unflipped). -/
theorem C3_wrong_answer_card (ud : UserData) (participants : List String)
    (quiz_id : Nat) (user_answers : List (Nat × Nat)) (r0 : QuizResult) (ca : QuizAnswer)
    (hres : (ud.check_quiz_answers quiz_id user_answers).filter
      (fun r => !r.is_correct) = [r0])
    (hone : (r0.question.answers).filter (fun a => a.is_correct) = [ca]) :
    ∃ card : FlashCard,
      ((handle_submit_quiz ud participants
          (.fields (some quiz_id) user_answers)).userdata).flash_cards =
        ud.flash_cards ++ [card] ∧
      card.question = r0.question.text ∧ card.answer = ca.text ∧
      card.is_flipped = false := by
  have hr0f : r0 ∈ (ud.check_quiz_answers quiz_id user_answers).filter
      (fun r => !r.is_correct) := by
    rw [hres]
    exact List.mem_cons_self r0 []
  have hr0 : r0 ∈ ud.check_quiz_answers quiz_id user_answers :=
    List.mem_of_mem_filter hr0f
  have hcorr0 : r0.correct = some ca := by
    unfold UserData.check_quiz_answers at hr0
    rcases hq : ud.get_quiz quiz_id with _ | quiz
    · rw [hq] at hr0
      cases hr0
    · rw [hq] at hr0
      rcases List.mem_map.mp hr0 with ⟨q, hqmem, rfl⟩
      rw [gradeQuestion_correct]
      exact scanAnswers_snd_unique _ q.answers none none ca hone
  have hcond : ∀ r ∈ ud.check_quiz_answers quiz_id user_answers,
      (r.is_correct = true → (r.selected).isSome) ∧
      (r.is_correct = false → (r.correct).isSome) := by
    intro r hr
    refine ⟨check_result_selected ud quiz_id user_answers r hr, ?_⟩
    intro hcf
    have hmemf : r ∈ (ud.check_quiz_answers quiz_id user_answers).filter
        (fun r => !r.is_correct) :=
      List.mem_filter.mpr ⟨hr, by simp [hcf]⟩
    rw [hres] at hmemf
    have hrr0 : r = r0 := by
      rcases List.mem_cons.mp hmemf with h1 | h1
      · exact h1
      · cases h1
    rw [hrr0, hcorr0]
    rfl
  have hloop := submitLoop_ok participants (ud.check_quiz_answers quiz_id user_answers)
    { ud := ud, sent := [], feedback := [] } hcond
  have hnonempty : (ud.check_quiz_answers quiz_id user_answers).isEmpty = false := by
    cases hchk : ud.check_quiz_answers quiz_id user_answers with
    | nil =>
      rw [hchk] at hres
      simp at hres
    | cons x xs => rfl
  obtain ⟨h2, cards, hcards, hmap⟩ := hloop
  have heq := handle_submit_quiz_success_eq ud participants quiz_id user_answers
    hnonempty h2
  rw [hres] at hmap
  have hct : corrText r0 = ca.text := by
    unfold corrText
    rw [hcorr0]
  cases cards with
  | nil => exact absurd hmap (by simp)
  | cons cd tl =>
    cases tl with
    | cons y ys => exact absurd hmap (by simp)
    | nil =>
      rw [List.map_cons, List.map_nil] at hmap
      have hpair : (cd.question, cd.answer, cd.is_flipped) =
          (r0.question.text, corrText r0, false) := (List.cons.inj hmap).1
      have h1 : cd.question = r0.question.text := congrArg Prod.fst hpair
      have h23 : (cd.answer, cd.is_flipped) = (corrText r0, false) :=
        congrArg Prod.snd hpair
      have hans : cd.answer = corrText r0 := congrArg Prod.fst h23
      have hflip : cd.is_flipped = false := congrArg Prod.snd h23
      refine ⟨cd, ?_, h1, hans.trans hct, hflip⟩
      rw [heq.2, hcards]

/-- Closed instance of `C3_wrong_answer_card`: the fixture quiz answered
with A1 (right) and B1 (wrong); the one remedial card is Q2/B2. -/
theorem C3_wrong_answer_card_witness :
    ((udEx.check_quiz_answers 6 [(2, 0), (5, 3)]).filter
        (fun r => !r.is_correct) = [resWrong] ∧
      (resWrong.question.answers).filter (fun a => a.is_correct) = [caB2]) ∧
    ∃ card : FlashCard,
      ((handle_submit_quiz udEx [] (.fields (some 6) [(2, 0), (5, 3)])).userdata).flash_cards =
        udEx.flash_cards ++ [card] ∧
      card.question = resWrong.question.text ∧ card.answer = caB2.text ∧
      card.is_flipped = false :=
  ⟨⟨rfl, rfl⟩, C3_wrong_answer_card udEx [] 6 [(2, 0), (5, 3)] resWrong caB2 rfl rfl⟩

/-- C3 is false as frozen: grading the no-flagged-correct fixture quiz
leaves exactly one question answered incorrectly, yet the handler (which
hits `correct_answer.text` on `None` before `add_flash_card`) appends no
flash card at all. -/
theorem C3_counterexample :
    ((udNoCorrect.check_quiz_answers 2 []).filter (fun r => !r.is_correct)).length = 1 ∧
    (handle_submit_quiz udNoCorrect [] (.fields (some 2) [])).userdata.flash_cards = [] ∧
    udNoCorrect.flash_cards = [] :=
  ⟨rfl, rfl, rfl⟩
